import Mathlib

/-!
Shallow embedding of the wallet-risk-check backend
(`src/backend/src/{backen.rs, db.rs, models.rs, ipc/client.rs}`) and proofs
about it.  Machine integers (`u64`, `u8`, `i64`) are modelled as `Nat` with
explicit `% 2^w` where overflow could matter; fallible Rust code returning
`Result` is modelled with `Except`; the Mongo document store is modelled as a
list of records in insertion order, with BSON `Null` represented by `none`
(the `doc!` macro serialises `Option::None` as `Bson::Null`, and every insert
writes all six keys).
-/

namespace FraudDetector

/-! ## Data model (`models.rs`) -/

/-- `WalletCheck` from `models.rs`, together with the store-assigned identity
(`_id`): `into_document` omits the `id` field and MongoDB assigns one on
insert, which we model as a `Nat` chosen fresh by the store. `none` in an
optional field stands for BSON `Null` (how `doc!` serialises `None`). -/
structure WalletCheck where
  id : Option Nat
  address : String
  subnet_id : Option String
  timestamp : Nat
  risk_level : Option String
  reason : Option String
  ipc_specific_flags : Option (List String)
  deriving DecidableEq, Inhabited

/-- `WalletCheck::new`: a pending record — verdict fields absent, identity
absent until persisted.  `now` stands for `Utc::now()`. -/
def WalletCheck.new (address : String) (subnet_id : Option String) (now : Nat) :
    WalletCheck :=
  { id := none
    address := address
    subnet_id := subnet_id
    timestamp := now
    risk_level := none
    reason := none
    ipc_specific_flags := none }

/-- `AIPredictionResponse` from `models.rs`. -/
structure AIPredictionResponse where
  risk_level : String
  reason : String
  ipc_specific_flags : Option (List String)
  deriving DecidableEq, Inhabited

/-- `WalletCheckResponse` from `models.rs`. -/
structure WalletCheckResponse where
  address : String
  subnet_id : Option String
  timestamp : Nat
  risk_level : String
  reason : String
  ipc_specific_flags : Option (List String)
  deriving DecidableEq, Inhabited

/-- `SubnetInfo` from `ipc/client.rs` (`total_addresses`, `active_validators`,
`cross_subnet_txs` are `u64`, `risk_score` is `u8`; all are produced in-range
so we carry them as `Nat`). -/
structure SubnetInfo where
  id : String
  total_addresses : Nat
  active_validators : Nat
  cross_subnet_txs : Nat
  risk_score : Nat
  deriving DecidableEq, Inhabited

/-! ## Address classifier (`ipc/mod.rs`, spec-modelled)

The classifier functions `is_valid_ipc_address`, `extract_subnet_id` and
`extract_eth_address` are declared in `crate::ipc` and used by `backen.rs`
and `ipc/client.rs`, but `ipc/mod.rs` is not among the provided source
files, so they are modelled from the spec (§3, §4.1). -/

/-- Hex digit as in `char::is_ascii_hexdigit`. -/
def isHexChar (c : Char) : Bool :=
  (decide ('0' ≤ c) && decide (c ≤ '9')) ||
  (decide ('a' ≤ c) && decide (c ≤ 'f')) ||
  (decide ('A' ≤ c) && decide (c ≤ 'F'))

/-- Modelled from the spec: the bare address grammar of §3/§4.1 — "a bare
hex-encoded 20-byte identifier prefixed with a fixed marker", i.e. the
literal marker `0x` followed by exactly 40 hexadecimal digits. -/
def isValidEthChars (cs : List Char) : Bool :=
  cs.length = 42 && cs.take 2 = ['0', 'x'] && (cs.drop 2).all isHexChar

/-- Split a character list at the first occurrence of the reserved separator
character `/`, returning the part before it (which contains no separator)
and the part after it. -/
def splitFirstSlash : List Char → Option (List Char × List Char)
  | [] => none
  | c :: cs =>
    if c = '/' then some ([], cs)
    else (splitFirstSlash cs).map fun p => (c :: p.1, p.2)

/-- Modelled from the spec: `is_valid_ipc_address` (missing `ipc/mod.rs`) —
accepts exactly the grammar of §4.1: an optional subnet identifier followed
by the single reserved separator `/`, then the fixed-length `0x`-prefixed
hexadecimal identifier; rejects everything else. -/
def is_valid_ipc_address (s : String) : Bool :=
  match splitFirstSlash s.data with
  | none => isValidEthChars s.data
  | some (sub, eth) => !sub.isEmpty && isValidEthChars eth

/-- Modelled from the spec: `extract_subnet_id` (missing `ipc/mod.rs`) —
returns the subnet identifier exactly when the composite form is present;
absence is a meaningful result, not a default (§4.1). -/
def extract_subnet_id (s : String) : Option String :=
  match splitFirstSlash s.data with
  | none => none
  | some (sub, eth) =>
    if !sub.isEmpty && isValidEthChars eth then some (String.mk sub) else none

/-- Modelled from the spec: `extract_eth_address` (missing `ipc/mod.rs`) —
on any valid address returns the bare identifier. -/
def extract_eth_address (s : String) : Option String :=
  match splitFirstSlash s.data with
  | none => if isValidEthChars s.data then some s else none
  | some (sub, eth) =>
    if !sub.isEmpty && isValidEthChars eth then some (String.mk eth) else none

/-- The classification outcome of §4.1: every input is exactly one of
invalid, plain, or composite. -/
inductive Classification where
  | invalid
  | plain (eth : String)
  | composite (subnet : String) (eth : String)
  deriving DecidableEq

/-- Modelled from the spec: `classify(raw) -> Classification | Invalid`
(§4.1), assembled from the same grammar as `is_valid_ipc_address`. -/
def classify (s : String) : Classification :=
  match splitFirstSlash s.data with
  | none => if isValidEthChars s.data then .plain s else .invalid
  | some (sub, eth) =>
    if !sub.isEmpty && isValidEthChars eth then
      .composite (String.mk sub) (String.mk eth)
    else .invalid

/-! ## Subnet statistics generator (`ipc/client.rs`) -/

/-- `IPCClientError` from `ipc/client.rs`. -/
inductive IPCClientError where
  | invalidAddress
  | providerError (msg : String)
  | envVarError (name : String)
  | ethersError (msg : String)
  deriving DecidableEq

/-- `IPCClient` from `ipc/client.rs`: it carries only the RPC provider
(constructed from the `IPC_RPC_URL` environment variable), which
`get_subnet_info` never consults. -/
structure IPCClient where
  provider : String

/-- The `hash_value` computed by `IPCClient::get_subnet_info`:
`subnet_id.chars().map(|c| c as u64).sum::<u64>()` — the sum of the
identifier's character codes, in `u64` (wrapping) arithmetic. -/
def hashValue (subnet_id : String) : Nat :=
  (subnet_id.data.map Char.toNat).sum % 2 ^ 64

/-- `IPCClient::get_subnet_info` from `ipc/client.rs:97-113`: derives mock
statistics deterministically from the identifier and always returns `Ok`.
The `risk_score` is `((hash_value % 100) as u8).min(100)`: the `as u8` cast
is `% 256` and the final clamp is `.min 100`. -/
def IPCClient.get_subnet_info (_self : IPCClient) (subnet_id : String) :
    Except IPCClientError SubnetInfo :=
  let hash_value := hashValue subnet_id
  .ok
    { id := subnet_id
      total_addresses := 1000 + hash_value % 9000
      active_validators := 10 + hash_value % 90
      cross_subnet_txs := 500 + hash_value % 1500
      risk_score := min (hash_value % 100 % 256) 100 }

/-! ## Risk record store (`db.rs`)

The `wallet_checks` Mongo collection is modelled as a `List WalletCheck` in
insertion order; the store assigns the fresh identity on insert. -/

/-- `DbClient::insert_wallet_check` (`db.rs:38-42`): inserts
`wallet_check.into_document()` (which drops the absent `id`); MongoDB
assigns the identity, modelled as the current store length. -/
def insert_wallet_check (store : List WalletCheck) (wc : WalletCheck) :
    List WalletCheck :=
  store ++ [{ wc with id := some store.length }]

/-- The document selected by
`find_one_and_update(filter: address, sort: timestamp descending)`: the
index and timestamp of the matching record whose creation timestamp is
maximal among records with the given address (`none` when no record
matches). -/
def findMostRecentIdx : List WalletCheck → String → Option (Nat × Nat)
  | [], _ => none
  | r :: rs, addr =>
    let rest := (findMostRecentIdx rs addr).map fun p => (p.1 + 1, p.2)
    if r.address = addr then
      match rest with
      | some (i, t) => if r.timestamp < t then some (i, t) else some (0, r.timestamp)
      | none => some (0, r.timestamp)
    else rest

/-- The `$set` update document built by `DbClient::update_wallet_check`
(`db.rs:56-73`): always sets `risk_level` and `reason`; sets
`ipc_specific_flags` only when the verdict carries flags. -/
def applyVerdict (r : WalletCheck) (risk_level reason : String)
    (ipc_specific_flags : Option (List String)) : WalletCheck :=
  { r with
    risk_level := some risk_level
    reason := some reason
    ipc_specific_flags :=
      match ipc_specific_flags with
      | some flags => some flags
      | none => r.ipc_specific_flags }

/-- `DbClient::update_wallet_check` (`db.rs:44-81`): `find_one_and_update`
with filter `{address}` and sort `{timestamp: -1}` updates in place the most
recently created record for the address; when nothing matches it returns
`Ok(None)`, which the method ignores — a silent no-op, never a fault. -/
def update_wallet_check (store : List WalletCheck) (address : String)
    (risk_level reason : String) (ipc_specific_flags : Option (List String)) :
    List WalletCheck :=
  match findMostRecentIdx store address with
  | none => store
  | some (i, _) =>
    store.set i (applyVerdict (store.getD i default) risk_level reason
      ipc_specific_flags)

/-- Stable insertion of a record into a list already sorted by timestamp
descending (models Mongo `sort {timestamp: -1}`). -/
def insertDesc (r : WalletCheck) : List WalletCheck → List WalletCheck
  | [] => [r]
  | x :: xs => if r.timestamp ≤ x.timestamp then x :: insertDesc r xs
               else r :: x :: xs

/-- Sort by creation timestamp, descending. -/
def sortDesc : List WalletCheck → List WalletCheck
  | [] => []
  | x :: xs => insertDesc x (sortDesc xs)

/-- `DbClient::get_recent_checks` (`db.rs:83-95`): `find` with sort
`{timestamp: -1}` and `limit`. -/
def DbClient.get_recent_checks (store : List WalletCheck) (limit : Nat) :
    List WalletCheck :=
  (sortDesc store).take limit

/-! ## `GET /recent-checks` rendering (`backen.rs:111-157`) -/

/-- A rendered JSON field value: `null` (how `serde_json` serialises a
`None`), a string, or an array of strings. -/
inductive JVal where
  | null
  | str (s : String)
  | arr (xs : List String)
  deriving DecidableEq

/-- One element of the array returned by the `get_recent_checks` handler. -/
structure RenderedCheck where
  address : String
  subnet_id : JVal
  timestamp : Nat
  risk_level : JVal
  reason : JVal
  ipc_specific_flags : JVal
  deriving DecidableEq

/-- The per-document rendering in `get_recent_checks` (`backen.rs:119-147`):
`get_str("risk_level").unwrap_or("Unknown")`, `get_str("reason").unwrap_or("")`
(both `get_str` calls fail on BSON `Null`, so the fallback fires for pending
records), `subnet_id` as an `Option`, and `ipc_specific_flags` normalising an
empty array to `None`. -/
def renderCheck (r : WalletCheck) : RenderedCheck :=
  { address := r.address
    subnet_id :=
      match r.subnet_id with
      | some s => .str s
      | none => .null
    timestamp := r.timestamp
    risk_level := .str (r.risk_level.getD "Unknown")
    reason := .str (r.reason.getD "")
    ipc_specific_flags :=
      match r.ipc_specific_flags with
      | some flags => if flags.isEmpty then .null else .arr flags
      | none => .null }

/-- The `GET /recent-checks` handler (`backen.rs:111-157`):
`query.limit.unwrap_or(10)`, then the store read, then the rendering map. -/
def get_recent_checks_handler (store : List WalletCheck)
    (limitQ : Option Nat) : List RenderedCheck :=
  (DbClient.get_recent_checks store (limitQ.getD 10)).map renderCheck

/-! ## Orchestrator (`backen.rs:21-109`, `check_wallet`) -/

/-- Outcome of the single outbound `POST {AI_SERVICE_URL}/predict`:
transport failure (`send()` returned `Err`), or a response with a success
flag (`status().is_success()`) and the body's parse as
`AIPredictionResponse` (`none` when parsing failed). -/
inductive AiResult where
  | sendErr
  | response (isSuccess : Bool) (body : Option AIPredictionResponse)
  deriving DecidableEq

/-- The three prediction fault kinds: unreachable, rejected (non-success
status), malformed body. -/
def aiFailed : AiResult → Bool
  | .sendErr => true
  | .response isSuccess body => !isSuccess || body.isNone

/-- The effects `check_wallet` can attempt, in order of attempt. -/
inductive Event where
  | dbInsert
  | aiCall
  | dbUpdate
  deriving DecidableEq

/-- Environment for one `check_wallet` request: whether the store insert
commits, the outcome of the outbound prediction call, whether the store
update commits, and the two `Utc::now()` readings. -/
structure PipelineEnv where
  insertOk : Bool
  aiResult : AiResult
  updateOk : Bool
  now : Nat
  respNow : Nat

/-- The HTTP outcome of `check_wallet`: `400` with a JSON error body, `500`
via `ErrorInternalServerError`, or `200` with a `WalletCheckResponse`. -/
inductive HandlerResult where
  | badRequest (msg : String)
  | internalError (msg : String)
  | ok (resp : WalletCheckResponse)
  deriving DecidableEq

/-- `check_wallet` (`backen.rs:21-109`): validate, create the pending record,
call the prediction service, reconcile, respond.  Returns the HTTP outcome,
the resulting store, and the trace of attempted effects. -/
def check_wallet (env : PipelineEnv) (store : List WalletCheck)
    (address : String) : HandlerResult × List WalletCheck × List Event :=
  if !is_valid_ipc_address address then
    (.badRequest "Invalid IPC or Ethereum address format", store, [])
  else
    let subnet_id := extract_subnet_id address
    let wallet_check := WalletCheck.new address subnet_id env.now
    if !env.insertOk then
      (.internalError "Database error", store, [.dbInsert])
    else
      let store₁ := insert_wallet_check store wallet_check
      match env.aiResult with
      | .sendErr =>
        (.internalError "Failed to connect to AI service", store₁,
          [.dbInsert, .aiCall])
      | .response isSuccess body =>
        if !isSuccess then
          (.internalError "AI service error", store₁, [.dbInsert, .aiCall])
        else
          match body with
          | none =>
            (.internalError "Failed to parse AI response", store₁,
              [.dbInsert, .aiCall])
          | some ai_response =>
            if !env.updateOk then
              (.internalError "Database error", store₁,
                [.dbInsert, .aiCall, .dbUpdate])
            else
              let store₂ := update_wallet_check store₁ address
                ai_response.risk_level ai_response.reason
                ai_response.ipc_specific_flags
              (.ok
                { address := address
                  subnet_id := subnet_id
                  timestamp := env.respNow
                  risk_level := ai_response.risk_level
                  reason := ai_response.reason
                  ipc_specific_flags := ai_response.ipc_specific_flags },
                store₂, [.dbInsert, .aiCall, .dbUpdate])

end FraudDetector

namespace FraudDetector

/-! ### Store lemmas -/

/-- `i` is the index of a record with address `addr` whose timestamp `t` is
maximal among the records with that address. -/
def IsMostRecent (l : List WalletCheck) (addr : String) (i t : Nat) : Prop :=
  i < l.length ∧ (l.getD i default).address = addr ∧
    (l.getD i default).timestamp = t ∧
    ∀ j, j < l.length → (l.getD j default).address = addr →
      (l.getD j default).timestamp ≤ t

theorem getD_cons_zero (r : WalletCheck) (rs : List WalletCheck) :
    (r :: rs).getD 0 default = r := rfl

theorem getD_cons_succ (r : WalletCheck) (rs : List WalletCheck) (j : Nat) :
    (r :: rs).getD (j + 1) default = rs.getD j default := rfl

theorem getD_mem_of_lt {l : List WalletCheck} {j : Nat} (h : j < l.length) :
    l.getD j default ∈ l := by
  rw [List.getD_eq_getElem?_getD, List.getElem?_eq_getElem h]
  exact List.getElem_mem h

theorem isMostRecent_cons {rs : List WalletCheck} {addr : String} {i t : Nat}
    (r : WalletCheck) (h : IsMostRecent rs addr i t)
    (hr : r.address = addr → r.timestamp ≤ t) :
    IsMostRecent (r :: rs) addr (i + 1) t := by
  obtain ⟨hi, ha, ht, hmax⟩ := h
  refine ⟨by simpa using Nat.succ_lt_succ hi, by simpa [getD_cons_succ] using ha,
    by simpa [getD_cons_succ] using ht, ?_⟩
  intro j hj hja
  cases j with
  | zero => exact hr (by simpa [getD_cons_zero] using hja)
  | succ j =>
    rw [getD_cons_succ] at hja ⊢
    exact hmax j (by simpa using hj) hja

theorem findMostRecentIdx_spec (l : List WalletCheck) (addr : String) :
    match findMostRecentIdx l addr with
    | none => ∀ r ∈ l, r.address ≠ addr
    | some (i, t) => IsMostRecent l addr i t := by
  induction l with
  | nil => simp [findMostRecentIdx]
  | cons r rs ih =>
    by_cases hr : r.address = addr
    · rcases hfi : findMostRecentIdx rs addr with _ | ⟨i, t⟩
      · rw [hfi] at ih
        simp only [findMostRecentIdx, hfi, Option.map_none', if_pos hr]
        exact ⟨by simp, by simpa [getD_cons_zero] using hr, rfl, by
          intro j hj hja
          cases j with
          | zero => exact le_refl _
          | succ j =>
            rw [getD_cons_succ] at hja
            exact absurd hja (ih _ (getD_mem_of_lt (by simpa using hj)))⟩
      · rw [hfi] at ih
        simp only [findMostRecentIdx, hfi, Option.map_some', if_pos hr]
        by_cases hlt : r.timestamp < t
        · simp only [if_pos hlt]
          exact isMostRecent_cons r ih (fun _ => le_of_lt hlt)
        · simp only [if_neg hlt]
          obtain ⟨hi, ha, ht, hmax⟩ := ih
          refine ⟨by simp, by simpa [getD_cons_zero] using hr, rfl, ?_⟩
          intro j hj hja
          cases j with
          | zero => exact le_refl _
          | succ j =>
            rw [getD_cons_succ] at hja
            exact le_trans (hmax j (by simpa using hj) hja) (not_lt.mp hlt)
    · rcases hfi : findMostRecentIdx rs addr with _ | ⟨i, t⟩
      · rw [hfi] at ih
        simp only [findMostRecentIdx, hfi, Option.map_none', if_neg hr]
        intro x hx
        rcases List.mem_cons.mp hx with h | h
        · exact h ▸ hr
        · exact ih x h
      · rw [hfi] at ih
        simp only [findMostRecentIdx, hfi, Option.map_some', if_neg hr]
        exact isMostRecent_cons r ih (fun h => absurd h hr)

theorem findMostRecentIdx_eq_none {l : List WalletCheck} {addr : String}
    (h : ∀ r ∈ l, r.address ≠ addr) : findMostRecentIdx l addr = none := by
  induction l with
  | nil => rfl
  | cons r rs ih =>
    have hr : ¬ r.address = addr := h r (List.mem_cons_self r rs)
    rw [findMostRecentIdx, ih fun x hx => h x (List.mem_cons_of_mem r hx)]
    simp [hr]

theorem findMostRecentIdx_isSome {l : List WalletCheck} {addr : String}
    (h : ∃ r ∈ l, r.address = addr) :
    ∃ i t, findMostRecentIdx l addr = some (i, t) ∧ IsMostRecent l addr i t := by
  have hspec := findMostRecentIdx_spec l addr
  rcases hfi : findMostRecentIdx l addr with _ | ⟨i, t⟩
  · rw [hfi] at hspec
    obtain ⟨r, hr, hra⟩ := h
    exact absurd hra (hspec r hr)
  · rw [hfi] at hspec
    exact ⟨i, t, rfl, hspec⟩

/-- C1: when the store holds at least one record for the address, `reconcile`
(`update_wallet_check`) rewrites exactly one record — the matching record
whose creation timestamp is maximal (i.e. the most recently created one,
first under the timestamp-descending sort) — replacing it in place by the
verdict-applied record and leaving every other position untouched; the
selection uses only the address and recency, never the handle from
`create` (the function takes no handle at all). -/
theorem update_wallet_check_targets_most_recent (store : List WalletCheck)
    (address risk_level reason : String) (flags : Option (List String))
    (hmatch : ∃ r ∈ store, r.address = address) :
    ∃ i, i < store.length ∧
      (store.getD i default).address = address ∧
      (∀ j, j < store.length → (store.getD j default).address = address →
        (store.getD j default).timestamp ≤ (store.getD i default).timestamp) ∧
      update_wallet_check store address risk_level reason flags =
        store.set i
          (applyVerdict (store.getD i default) risk_level reason flags) := by
  obtain ⟨i, t, hfi, hi, ha, ht, hmax⟩ := findMostRecentIdx_isSome hmatch
  exact ⟨i, hi, ha, fun j hj hja => ht ▸ hmax j hj hja, by
    rw [update_wallet_check, hfi]⟩

/-- Witness for C1: a two-record store for the same address, applying the
theorem with its match hypothesis discharged at a concrete store. -/
theorem update_wallet_check_targets_most_recent_witness :
    ∃ i,
      i < ([WalletCheck.new "a" none 1, WalletCheck.new "a" none 5]).length ∧
      (([WalletCheck.new "a" none 1,
          WalletCheck.new "a" none 5]).getD i default).address = "a" ∧
      (∀ j, j < ([WalletCheck.new "a" none 1,
            WalletCheck.new "a" none 5]).length →
        (([WalletCheck.new "a" none 1,
            WalletCheck.new "a" none 5]).getD j default).address = "a" →
        (([WalletCheck.new "a" none 1,
            WalletCheck.new "a" none 5]).getD j default).timestamp ≤
          (([WalletCheck.new "a" none 1,
              WalletCheck.new "a" none 5]).getD i default).timestamp) ∧
      update_wallet_check
        [WalletCheck.new "a" none 1, WalletCheck.new "a" none 5] "a"
        "Low" "clean" none =
        ([WalletCheck.new "a" none 1, WalletCheck.new "a" none 5]).set i
          (applyVerdict
            (([WalletCheck.new "a" none 1,
                WalletCheck.new "a" none 5]).getD i default)
            "Low" "clean" none) :=
  update_wallet_check_targets_most_recent
    [WalletCheck.new "a" none 1, WalletCheck.new "a" none 5] "a"
    "Low" "clean" none ⟨WalletCheck.new "a" none 1, by simp, rfl⟩

/-- C7: reconciling an address with zero stored records is a no-op returning
success: `find_one_and_update` matches nothing, returns `Ok(None)`, the
store is unchanged, and no "not found" fault is raised (the model is total —
it returns the unchanged store rather than an error). -/
theorem update_wallet_check_no_match (store : List WalletCheck)
    (address risk_level reason : String) (flags : Option (List String))
    (h : ∀ r ∈ store, r.address ≠ address) :
    update_wallet_check store address risk_level reason flags = store := by
  rw [update_wallet_check, findMostRecentIdx_eq_none h]

/-- Witness for C7 at a concrete store containing only other addresses. -/
theorem update_wallet_check_no_match_witness :
    update_wallet_check [WalletCheck.new "b" none 1] "a" "Low" "clean" none =
      [WalletCheck.new "b" none 1] :=
  update_wallet_check_no_match [WalletCheck.new "b" none 1] "a" "Low" "clean"
    none (by intro r hr; simp at hr; subst hr; simp [WalletCheck.new])

theorem getD_set {i j : Nat} {v : WalletCheck} {store : List WalletCheck}
    (hi : i < store.length) :
    (store.set i v).getD j default =
      if i = j then v else store.getD j default := by
  rw [List.getD_eq_getElem?_getD, List.getD_eq_getElem?_getD, List.getElem?_set]
  by_cases hij : i = j
  · subst hij
    simp [hi]
  · simp [hij]

/-- C10: reconciling mutates only the verdict fields of the targeted record.
At every position the address, subnet identifier, creation timestamp and
store-assigned identity are unchanged; when the verdict carries no flags the
flags field is everywhere unchanged (never cleared); and any record that
changed at all now has `risk_level` and `reason` set to the verdict values
and flags equal to the supplied flags (or its previous flags when none were
supplied). -/
theorem update_wallet_check_frame (store : List WalletCheck)
    (address risk_level reason : String) (flags : Option (List String)) :
    (update_wallet_check store address risk_level reason flags).length =
      store.length ∧
    ∀ j, j < store.length →
      ((update_wallet_check store address risk_level reason flags).getD j
          default).address = (store.getD j default).address ∧
      ((update_wallet_check store address risk_level reason flags).getD j
          default).subnet_id = (store.getD j default).subnet_id ∧
      ((update_wallet_check store address risk_level reason flags).getD j
          default).timestamp = (store.getD j default).timestamp ∧
      ((update_wallet_check store address risk_level reason flags).getD j
          default).id = (store.getD j default).id ∧
      (flags = none →
        ((update_wallet_check store address risk_level reason flags).getD j
            default).ipc_specific_flags =
          (store.getD j default).ipc_specific_flags) ∧
      ((update_wallet_check store address risk_level reason flags).getD j
          default ≠ store.getD j default →
        ((update_wallet_check store address risk_level reason flags).getD j
            default).risk_level = some risk_level ∧
        ((update_wallet_check store address risk_level reason flags).getD j
            default).reason = some reason ∧
        ((update_wallet_check store address risk_level reason flags).getD j
            default).ipc_specific_flags =
          flags.or (store.getD j default).ipc_specific_flags) := by
  rcases hfi : findMostRecentIdx store address with _ | ⟨i, t⟩
  · rw [update_wallet_check, hfi]
    exact ⟨rfl, fun j _ =>
      ⟨rfl, rfl, rfl, rfl, fun _ => rfl, fun h => absurd rfl h⟩⟩
  · have hspec := findMostRecentIdx_spec store address
    rw [hfi] at hspec
    obtain ⟨hi, -, -, -⟩ := hspec
    rw [update_wallet_check, hfi]
    refine ⟨List.length_set .., ?_⟩
    intro j hj
    rw [getD_set hi]
    by_cases hij : i = j
    · rw [if_pos hij]
      subst hij
      refine ⟨rfl, rfl, rfl, rfl, ?_, ?_⟩
      · intro hnone
        simp [applyVerdict, hnone]
      · intro _
        cases flags <;> simp [applyVerdict, Option.or]
    · rw [if_neg hij]
      exact ⟨rfl, rfl, rfl, rfl, fun _ => rfl, fun h => absurd rfl h⟩

/-- Witness for C10 at a concrete two-record store and a flagless verdict. -/
theorem update_wallet_check_frame_witness :
    (update_wallet_check
        [WalletCheck.new "a" (some "s1") 1,
          { WalletCheck.new "a" none 5 with
              ipc_specific_flags := some ["old"] }] "a"
        "Low" "clean" none).length =
      ([WalletCheck.new "a" (some "s1") 1,
        { WalletCheck.new "a" none 5 with
            ipc_specific_flags := some ["old"] }] : List WalletCheck).length ∧
    ((update_wallet_check
        [WalletCheck.new "a" (some "s1") 1,
          { WalletCheck.new "a" none 5 with
              ipc_specific_flags := some ["old"] }] "a"
        "Low" "clean" none).getD 1 default).ipc_specific_flags =
      some ["old"] := by
  have h := update_wallet_check_frame
    [WalletCheck.new "a" (some "s1") 1,
      { WalletCheck.new "a" none 5 with ipc_specific_flags := some ["old"] }]
    "a" "Low" "clean" none
  refine ⟨h.1, ?_⟩
  have h1 := (h.2 1 (by norm_num)).2.2.2.2.1 rfl
  rw [h1]
  rfl

/-! ### Classifier theorems -/

theorem splitFirstSlash_append :
    ∀ {cs a b : List Char}, splitFirstSlash cs = some (a, b) →
      cs = a ++ '/' :: b := by
  intro cs
  induction cs with
  | nil =>
    intro a b h
    exact absurd h (by simp [splitFirstSlash])
  | cons c cs ih =>
    intro a b h
    rw [splitFirstSlash] at h
    by_cases hc : c = '/'
    · rw [if_pos hc] at h
      injection h with h'
      injection h' with h1 h2
      subst h1
      subst h2
      rw [hc]
      rfl
    · rw [if_neg hc] at h
      rcases hsp : splitFirstSlash cs with _ | ⟨a', b'⟩
      · rw [hsp] at h
        exact absurd h (by simp)
      · rw [hsp, Option.map_some'] at h
        injection h with h'
        injection h' with h1 h2
        subst h1
        subst h2
        rw [ih hsp]
        rfl

/-- C9: classification is a total function (hence deterministic), every
input lands in exactly one of the three outcomes, and the outcomes are fully
characterised: invalid exactly when validation rejects; plain exactly when
the input itself is the bare identifier, with no subnet identifier extracted
(absence is the result, not a default); composite exactly when a subnet
identifier and the bare identifier are both extracted and reassemble the
input around the separator. -/
theorem classify_characterization (s : String) :
    (classify s = .invalid ↔ is_valid_ipc_address s = false) ∧
    (∀ eth, classify s = .plain eth ↔
      (is_valid_ipc_address s = true ∧ extract_subnet_id s = none ∧
        extract_eth_address s = some eth ∧ s = eth)) ∧
    (∀ sub eth, classify s = .composite sub eth ↔
      (is_valid_ipc_address s = true ∧ extract_subnet_id s = some sub ∧
        extract_eth_address s = some eth ∧ s = sub ++ "/" ++ eth)) := by
  rcases hsp : splitFirstSlash s.data with _ | ⟨a, b⟩
  · by_cases hval : isValidEthChars s.data
    · refine ⟨?_, ?_, ?_⟩
      · simp [classify, is_valid_ipc_address, hsp, hval]
      · intro eth
        constructor
        · intro h
          rw [classify, hsp, if_pos hval] at h
          injection h with h1
          subst h1
          exact ⟨by rw [is_valid_ipc_address, hsp, hval],
            by rw [extract_subnet_id, hsp],
            by rw [extract_eth_address, hsp, if_pos hval], rfl⟩
        · rintro ⟨-, -, -, rfl⟩
          rw [classify, hsp, if_pos hval]
      · intro sub eth
        constructor
        · intro h
          rw [classify, hsp, if_pos hval] at h
          exact Classification.noConfusion h
        · rintro ⟨-, hsub, -, -⟩
          rw [extract_subnet_id, hsp] at hsub
          exact Option.noConfusion hsub
    · refine ⟨?_, ?_, ?_⟩
      · simp [classify, is_valid_ipc_address, hsp, hval]
      · intro eth
        constructor
        · intro h
          rw [classify, hsp, if_neg hval] at h
          exact Classification.noConfusion h
        · rintro ⟨hv, -, -, -⟩
          rw [is_valid_ipc_address, hsp] at hv
          exact absurd hv hval
      · intro sub eth
        constructor
        · intro h
          rw [classify, hsp, if_neg hval] at h
          exact Classification.noConfusion h
        · rintro ⟨hv, -, -, -⟩
          rw [is_valid_ipc_address, hsp] at hv
          exact absurd hv hval
  · have hcs : s.data = a ++ '/' :: b := splitFirstSlash_append hsp
    by_cases hcond : (!a.isEmpty && isValidEthChars b) = true
    · refine ⟨?_, ?_, ?_⟩
      · simp [classify, is_valid_ipc_address, hsp, hcond]
      · intro eth
        constructor
        · intro h
          simp only [classify, hsp, if_pos hcond] at h
          exact Classification.noConfusion h
        · rintro ⟨-, hsub, -, -⟩
          simp only [extract_subnet_id, hsp, if_pos hcond] at hsub
          exact Option.noConfusion hsub
      · intro sub eth
        constructor
        · intro h
          simp only [classify, hsp, if_pos hcond] at h
          injection h with h1 h2
          subst h1
          subst h2
          refine ⟨by simp only [is_valid_ipc_address, hsp]; exact hcond,
            by simp only [extract_subnet_id, hsp, if_pos hcond],
            by simp only [extract_eth_address, hsp, if_pos hcond], ?_⟩
          exact String.ext (by simp [hcs])
        · rintro ⟨-, hsub, heth, -⟩
          simp only [extract_subnet_id, hsp, if_pos hcond] at hsub
          simp only [extract_eth_address, hsp, if_pos hcond] at heth
          injection hsub with h1
          injection heth with h2
          simp only [classify, hsp, if_pos hcond]
          rw [h1, h2]
    · refine ⟨?_, ?_, ?_⟩
      · simp [classify, is_valid_ipc_address, hsp, hcond]
      · intro eth
        constructor
        · intro h
          simp only [classify, hsp, if_neg hcond] at h
          exact Classification.noConfusion h
        · rintro ⟨hv, -, -, -⟩
          simp only [is_valid_ipc_address, hsp] at hv
          exact absurd hv hcond
      · intro sub eth
        constructor
        · intro h
          simp only [classify, hsp, if_neg hcond] at h
          exact Classification.noConfusion h
        · rintro ⟨hv, -, -, -⟩
          simp only [is_valid_ipc_address, hsp] at hv
          exact absurd hv hcond

/-- Witness for C9: the composite characterisation applied at a concrete
composite address. -/
theorem classify_characterization_witness :
    is_valid_ipc_address
        "net1/0xaaaaaaaaaaaaaaaaaaaaaaaaaaaaaaaaaaaaaaaa" = true ∧
    extract_subnet_id "net1/0xaaaaaaaaaaaaaaaaaaaaaaaaaaaaaaaaaaaaaaaa" =
      some "net1" ∧
    extract_eth_address "net1/0xaaaaaaaaaaaaaaaaaaaaaaaaaaaaaaaaaaaaaaaa" =
      some "0xaaaaaaaaaaaaaaaaaaaaaaaaaaaaaaaaaaaaaaaa" ∧
    "net1/0xaaaaaaaaaaaaaaaaaaaaaaaaaaaaaaaaaaaaaaaa" =
      "net1" ++ "/" ++ "0xaaaaaaaaaaaaaaaaaaaaaaaaaaaaaaaaaaaaaaaa" :=
  ((classify_characterization
      "net1/0xaaaaaaaaaaaaaaaaaaaaaaaaaaaaaaaaaaaaaaaa").2.2 "net1"
    "0xaaaaaaaaaaaaaaaaaaaaaaaaaaaaaaaaaaaaaaaa").mp (by decide)

/-! ### `listRecent` lemmas -/

theorem insertDesc_perm (r : WalletCheck) (l : List WalletCheck) :
    List.Perm (insertDesc r l) (r :: l) := by
  induction l with
  | nil => exact List.Perm.refl _
  | cons x xs ih =>
    rw [insertDesc]
    by_cases h : r.timestamp ≤ x.timestamp
    · rw [if_pos h]
      exact List.Perm.trans (List.Perm.cons x ih) (List.Perm.swap r x xs)
    · rw [if_neg h]

theorem sortDesc_perm (l : List WalletCheck) : List.Perm (sortDesc l) l := by
  induction l with
  | nil => exact List.Perm.refl _
  | cons x xs ih =>
    exact List.Perm.trans (insertDesc_perm x (sortDesc xs)) (List.Perm.cons x ih)

/-- Timestamp-descending order between adjacent records. -/
def TsGE (a b : WalletCheck) : Prop := b.timestamp ≤ a.timestamp

theorem mem_insertDesc {a r : WalletCheck} {l : List WalletCheck}
    (h : a ∈ insertDesc r l) : a = r ∨ a ∈ l :=
  List.mem_cons.mp ((insertDesc_perm r l).mem_iff.mp h)

theorem insertDesc_pairwise (r : WalletCheck) {l : List WalletCheck}
    (h : List.Pairwise TsGE l) : List.Pairwise TsGE (insertDesc r l) := by
  induction l with
  | nil => exact List.pairwise_singleton _ _
  | cons x xs ih =>
    rw [insertDesc]
    rcases List.pairwise_cons.mp h with ⟨hx, hxs⟩
    by_cases hr : r.timestamp ≤ x.timestamp
    · rw [if_pos hr]
      refine List.pairwise_cons.mpr ⟨?_, ih hxs⟩
      intro a ha
      rcases mem_insertDesc ha with rfl | ha
      · exact hr
      · exact hx a ha
    · rw [if_neg hr]
      refine List.pairwise_cons.mpr ⟨?_, h⟩
      intro a ha
      rcases List.mem_cons.mp ha with rfl | ha
      · exact le_of_lt (not_le.mp hr)
      · exact le_trans (hx a ha) (le_of_lt (not_le.mp hr))

theorem sortDesc_pairwise (l : List WalletCheck) :
    List.Pairwise TsGE (sortDesc l) := by
  induction l with
  | nil => exact List.Pairwise.nil
  | cons x xs ih => exact insertDesc_pairwise x ih

/-- Amended C6: `listRecent` returns the records sorted by creation
timestamp descending, truncated to the limit (default `10` when the query
gives none), and drawn from the store (the sort is a permutation).  In each
rendered record `subnet_id` is `null` exactly when unset and
`ipc_specific_flags` is `null` exactly when unset or the empty list; but the
unset `risk_level` renders as the placeholder string `"Unknown"` and the
unset `reason` as the empty string — string sentinels, not absence. -/
theorem get_recent_checks_renders (store : List WalletCheck)
    (limitQ : Option Nat) :
    get_recent_checks_handler store limitQ =
      ((sortDesc store).take (limitQ.getD 10)).map renderCheck ∧
    List.Perm (sortDesc store) store ∧
    List.Pairwise TsGE ((sortDesc store).take (limitQ.getD 10)) ∧
    ((sortDesc store).take (limitQ.getD 10)).length =
      min (limitQ.getD 10) store.length ∧
    ∀ r ∈ (sortDesc store).take (limitQ.getD 10),
      ((renderCheck r).subnet_id = JVal.null ↔ r.subnet_id = none) ∧
      ((renderCheck r).ipc_specific_flags = JVal.null ↔
        (r.ipc_specific_flags = none ∨ r.ipc_specific_flags = some [])) ∧
      (renderCheck r).risk_level = JVal.str (r.risk_level.getD "Unknown") ∧
      (renderCheck r).reason = JVal.str (r.reason.getD "") := by
  refine ⟨rfl, sortDesc_perm store, ?_, ?_, ?_⟩
  · exact (sortDesc_pairwise store).sublist (List.take_sublist _ _)
  · rw [List.length_take, (sortDesc_perm store).length_eq]
  · intro r _
    refine ⟨?_, ?_, rfl, rfl⟩
    · cases hs : r.subnet_id <;> simp [renderCheck, hs]
    · rcases hf : r.ipc_specific_flags with _ | flags
      · simp [renderCheck, hf]
      · cases flags <;> simp [renderCheck, hf]

/-- Witness for amended C6 at a concrete three-record store with limit 2. -/
theorem get_recent_checks_renders_witness :
    get_recent_checks_handler
        [WalletCheck.new "a" none 1, WalletCheck.new "b" none 9,
          WalletCheck.new "c" none 5] (some 2) =
      ((sortDesc [WalletCheck.new "a" none 1, WalletCheck.new "b" none 9,
          WalletCheck.new "c" none 5]).take 2).map renderCheck ∧
    ((sortDesc [WalletCheck.new "a" none 1, WalletCheck.new "b" none 9,
        WalletCheck.new "c" none 5]).take 2).length = 2 := by
  have h := get_recent_checks_renders
    [WalletCheck.new "a" none 1, WalletCheck.new "b" none 9,
      WalletCheck.new "c" none 5] (some 2)
  exact ⟨h.1, h.2.2.2.1⟩

/-- Counterexample to C6 as stated: a pending record (risk level and reason
not yet set) renders its `risk_level` as the sentinel string `"Unknown"` and
its `reason` as the sentinel empty string, not as absent — refuting the
claim that every optional field renders as absent when unset. -/
theorem get_recent_checks_sentinel_counterexample :
    (WalletCheck.new "0xaaaaaaaaaaaaaaaaaaaaaaaaaaaaaaaaaaaaaaaa" none
      1).risk_level = none ∧
    (WalletCheck.new "0xaaaaaaaaaaaaaaaaaaaaaaaaaaaaaaaaaaaaaaaa" none
      1).reason = none ∧
    get_recent_checks_handler
        [WalletCheck.new "0xaaaaaaaaaaaaaaaaaaaaaaaaaaaaaaaaaaaaaaaa" none 1]
        none =
      [{ address := "0xaaaaaaaaaaaaaaaaaaaaaaaaaaaaaaaaaaaaaaaa"
         subnet_id := JVal.null
         timestamp := 1
         risk_level := JVal.str "Unknown"
         reason := JVal.str ""
         ipc_specific_flags := JVal.null }] ∧
    JVal.str "Unknown" ≠ JVal.null ∧ JVal.str "" ≠ JVal.null := by
  refine ⟨rfl, rfl, rfl, ?_, ?_⟩
  · intro h
    exact JVal.noConfusion h
  · intro h
    exact JVal.noConfusion h

/-! ### Orchestrator theorems -/

/-- C2: the pipeline short-circuits.  An invalid address yields the `400`
client-input error with the store untouched and no effect attempted at all;
a failed create yields the `500` server fault with no outbound call; and
whenever the outbound prediction call is attempted at all, the create was
attempted first (the trace begins `dbInsert, aiCall`) and had succeeded. -/
theorem check_wallet_short_circuit (env : PipelineEnv)
    (store : List WalletCheck) (address : String) :
    (is_valid_ipc_address address = false →
      check_wallet env store address =
        (.badRequest "Invalid IPC or Ethereum address format", store, [])) ∧
    (is_valid_ipc_address address = true → env.insertOk = false →
      check_wallet env store address =
        (.internalError "Database error", store, [.dbInsert])) ∧
    (Event.aiCall ∈ (check_wallet env store address).2.2 →
      is_valid_ipc_address address = true ∧ env.insertOk = true ∧
      ∃ rest, (check_wallet env store address).2.2 =
        Event.dbInsert :: Event.aiCall :: rest) := by
  refine ⟨?_, ?_, ?_⟩
  · intro hv
    simp [check_wallet, hv]
  · intro hv hins
    simp [check_wallet, hv, hins]
  · intro hmem
    cases hv : is_valid_ipc_address address
    · simp [check_wallet, hv] at hmem
    · cases hins : env.insertOk
      · simp [check_wallet, hv, hins] at hmem
      · refine ⟨rfl, rfl, ?_⟩
        rcases har : env.aiResult with _ | ⟨isS, body⟩
        · exact ⟨[], by simp [check_wallet, hv, hins, har]⟩
        · cases isS
          · exact ⟨[], by simp [check_wallet, hv, hins, har]⟩
          · rcases body with _ | ai
            · exact ⟨[], by simp [check_wallet, hv, hins, har]⟩
            · cases hupd : env.updateOk
              · exact ⟨[.dbUpdate], by simp [check_wallet, hv, hins, har, hupd]⟩
              · exact ⟨[.dbUpdate], by simp [check_wallet, hv, hins, har, hupd]⟩

/-- Witness for C2: concrete instances of all three short-circuit clauses. -/
theorem check_wallet_short_circuit_witness :
    (check_wallet ⟨true, .sendErr, true, 3, 4⟩ [] "not-an-address" =
      (.badRequest "Invalid IPC or Ethereum address format", [], [])) ∧
    (check_wallet ⟨false, .sendErr, true, 3, 4⟩ []
        "0xaaaaaaaaaaaaaaaaaaaaaaaaaaaaaaaaaaaaaaaa" =
      (.internalError "Database error", [], [.dbInsert])) := by
  constructor
  · exact (check_wallet_short_circuit ⟨true, .sendErr, true, 3, 4⟩ []
      "not-an-address").1 (by decide)
  · exact (check_wallet_short_circuit ⟨false, .sendErr, true, 3, 4⟩ []
      "0xaaaaaaaaaaaaaaaaaaaaaaaaaaaaaaaaaaaaaaaa").2.1 (by decide) rfl

/-- C3: when the create succeeded and the prediction step fails with any of
its three fault kinds (transport failure, non-success status, malformed
body), the handler answers with a server fault and the created record is
still in the store, pending and untouched — the trace shows no `dbUpdate`
(and no delete operation even exists in the store model). -/
theorem check_wallet_orphan (env : PipelineEnv) (store : List WalletCheck)
    (address : String)
    (hv : is_valid_ipc_address address = true)
    (hins : env.insertOk = true)
    (hfail : aiFailed env.aiResult = true) :
    (∃ msg, (check_wallet env store address).1 = .internalError msg) ∧
    (∃ r, (check_wallet env store address).2.1 = store ++ [r] ∧
      r.address = address ∧ r.subnet_id = extract_subnet_id address ∧
      r.timestamp = env.now ∧ r.risk_level = none ∧ r.reason = none ∧
      r.ipc_specific_flags = none) ∧
    (check_wallet env store address).2.2 = [.dbInsert, .aiCall] := by
  rcases har : env.aiResult with _ | ⟨isS, body⟩
  · exact ⟨⟨"Failed to connect to AI service",
      by simp [check_wallet, hv, hins, har]⟩,
      ⟨{ WalletCheck.new address (extract_subnet_id address) env.now with
          id := some store.length },
        by simp [check_wallet, hv, hins, har, insert_wallet_check],
        rfl, rfl, rfl, rfl, rfl, rfl⟩,
      by simp [check_wallet, hv, hins, har]⟩
  · cases isS
    · exact ⟨⟨"AI service error", by simp [check_wallet, hv, hins, har]⟩,
        ⟨{ WalletCheck.new address (extract_subnet_id address) env.now with
            id := some store.length },
          by simp [check_wallet, hv, hins, har, insert_wallet_check],
          rfl, rfl, rfl, rfl, rfl, rfl⟩,
        by simp [check_wallet, hv, hins, har]⟩
    · rcases body with _ | ai
      · exact ⟨⟨"Failed to parse AI response",
          by simp [check_wallet, hv, hins, har]⟩,
          ⟨{ WalletCheck.new address (extract_subnet_id address) env.now with
              id := some store.length },
            by simp [check_wallet, hv, hins, har, insert_wallet_check],
            rfl, rfl, rfl, rfl, rfl, rfl⟩,
          by simp [check_wallet, hv, hins, har]⟩
      · rw [har] at hfail
        simp [aiFailed] at hfail

/-- Witness for C3: prediction service returns a non-success status for a
valid plain address; one pending orphan record results. -/
theorem check_wallet_orphan_witness :
    (∃ msg,
      (check_wallet ⟨true, .response false none, true, 3, 4⟩ []
        "0xaaaaaaaaaaaaaaaaaaaaaaaaaaaaaaaaaaaaaaaa").1 =
        .internalError msg) ∧
    (∃ r,
      (check_wallet ⟨true, .response false none, true, 3, 4⟩ []
        "0xaaaaaaaaaaaaaaaaaaaaaaaaaaaaaaaaaaaaaaaa").2.1 = [] ++ [r] ∧
      r.address = "0xaaaaaaaaaaaaaaaaaaaaaaaaaaaaaaaaaaaaaaaa" ∧
      r.subnet_id =
        extract_subnet_id "0xaaaaaaaaaaaaaaaaaaaaaaaaaaaaaaaaaaaaaaaa" ∧
      r.timestamp = 3 ∧ r.risk_level = none ∧ r.reason = none ∧
      r.ipc_specific_flags = none) ∧
    (check_wallet ⟨true, .response false none, true, 3, 4⟩ []
      "0xaaaaaaaaaaaaaaaaaaaaaaaaaaaaaaaaaaaaaaaa").2.2 =
      [.dbInsert, .aiCall] :=
  check_wallet_orphan ⟨true, .response false none, true, 3, 4⟩ []
    "0xaaaaaaaaaaaaaaaaaaaaaaaaaaaaaaaaaaaaaaaa" (by decide) rfl rfl

/-- C8: when the prediction succeeded but the reconciling update fails, the
handler answers the `500` server fault and never the `200` verdict — the
caller cannot learn a verdict that was not durably recorded. -/
theorem check_wallet_update_failure (env : PipelineEnv)
    (store : List WalletCheck) (address : String) (ai : AIPredictionResponse)
    (hv : is_valid_ipc_address address = true)
    (hins : env.insertOk = true)
    (hai : env.aiResult = .response true (some ai))
    (hupd : env.updateOk = false) :
    (check_wallet env store address).1 = .internalError "Database error" ∧
    ∀ resp, (check_wallet env store address).1 ≠ .ok resp := by
  have h : (check_wallet env store address).1 =
      .internalError "Database error" := by
    simp [check_wallet, hv, hins, hai, hupd]
  exact ⟨h, fun resp hok => by rw [h] at hok; exact HandlerResult.noConfusion hok⟩

/-- Witness for C8: a successful prediction followed by a failing update. -/
theorem check_wallet_update_failure_witness :
    (check_wallet ⟨true, .response true (some ⟨"Low", "clean", none⟩), false,
        3, 4⟩ [] "0xaaaaaaaaaaaaaaaaaaaaaaaaaaaaaaaaaaaaaaaa").1 =
      .internalError "Database error" ∧
    ∀ resp,
      (check_wallet ⟨true, .response true (some ⟨"Low", "clean", none⟩), false,
          3, 4⟩ [] "0xaaaaaaaaaaaaaaaaaaaaaaaaaaaaaaaaaaaaaaaa").1 ≠
        .ok resp :=
  check_wallet_update_failure
    ⟨true, .response true (some ⟨"Low", "clean", none⟩), false, 3, 4⟩ []
    "0xaaaaaaaaaaaaaaaaaaaaaaaaaaaaaaaaaaaaaaaa" ⟨"Low", "clean", none⟩
    (by decide) rfl rfl rfl

/-- C4: for every subnet identifier, `get_subnet_info` succeeds and returns
the identifier unchanged, total addresses in `[1000, 10000)`, active
validators in `[10, 100)`, cross-subnet transactions in `[500, 2000)`, and a
risk score equal to `seed % 100` clamped at `100`, the clamp being a no-op,
hence a risk score in `[0, 100]`; the seed is the `u64` sum of the
identifier's character codes. -/
theorem get_subnet_info_bounds (c : IPCClient) (subnet_id : String) :
    ∃ info : SubnetInfo, c.get_subnet_info subnet_id = .ok info ∧
      info.id = subnet_id ∧
      info.total_addresses = 1000 + hashValue subnet_id % 9000 ∧
      1000 ≤ info.total_addresses ∧ info.total_addresses < 10000 ∧
      10 ≤ info.active_validators ∧ info.active_validators < 100 ∧
      500 ≤ info.cross_subnet_txs ∧ info.cross_subnet_txs < 2000 ∧
      info.risk_score = min (hashValue subnet_id % 100) 100 ∧
      min (hashValue subnet_id % 100) 100 = hashValue subnet_id % 100 ∧
      info.risk_score ≤ 100 := by
  refine ⟨_, rfl, rfl, rfl, ?_⟩
  have h9000 : hashValue subnet_id % 9000 < 9000 := Nat.mod_lt _ (by norm_num)
  have h90 : hashValue subnet_id % 90 < 90 := Nat.mod_lt _ (by norm_num)
  have h1500 : hashValue subnet_id % 1500 < 1500 := Nat.mod_lt _ (by norm_num)
  have h100 : hashValue subnet_id % 100 < 100 := Nat.mod_lt _ (by norm_num)
  have hcast : hashValue subnet_id % 100 % 256 = hashValue subnet_id % 100 :=
    Nat.mod_eq_of_lt (lt_trans h100 (by norm_num))
  have hclamp : min (hashValue subnet_id % 100) 100 = hashValue subnet_id % 100 :=
    min_eq_left (le_of_lt (lt_of_lt_of_le h100 (by norm_num)))
  dsimp only
  rw [hcast]
  refine ⟨Nat.le_add_right _ _, by omega, Nat.le_add_right _ _, by omega,
    Nat.le_add_right _ _, by omega, rfl, hclamp, by omega⟩

/-- Witness for C4 at a concrete identifier. -/
theorem get_subnet_info_bounds_witness :
    ∃ info : SubnetInfo,
      IPCClient.get_subnet_info ⟨"http://localhost:8545"⟩ "subnet42" = .ok info ∧
      info.id = "subnet42" ∧
      info.total_addresses = 1000 + hashValue "subnet42" % 9000 ∧
      1000 ≤ info.total_addresses ∧ info.total_addresses < 10000 ∧
      10 ≤ info.active_validators ∧ info.active_validators < 100 ∧
      500 ≤ info.cross_subnet_txs ∧ info.cross_subnet_txs < 2000 ∧
      info.risk_score = min (hashValue "subnet42" % 100) 100 ∧
      min (hashValue "subnet42" % 100) 100 = hashValue "subnet42" % 100 ∧
      info.risk_score ≤ 100 :=
  get_subnet_info_bounds ⟨"http://localhost:8545"⟩ "subnet42"

/-- C5: the statistics derivation is a pure deterministic function of the
identifier alone — any two clients (arbitrary provider state) agree on every
call, so repeated calls with a fixed identifier yield identical
`SubnetInfo` values in every field. -/
theorem get_subnet_info_deterministic (c₁ c₂ : IPCClient) (subnet_id : String) :
    c₁.get_subnet_info subnet_id = c₂.get_subnet_info subnet_id := rfl

/-- Witness for C5 at two distinct concrete clients. -/
theorem get_subnet_info_deterministic_witness :
    IPCClient.get_subnet_info ⟨"http://nodeA:8545"⟩ "subnet42" =
      IPCClient.get_subnet_info ⟨"http://nodeB:9999"⟩ "subnet42" :=
  get_subnet_info_deterministic ⟨"http://nodeA:8545"⟩ ⟨"http://nodeB:9999"⟩ "subnet42"

end FraudDetector
